import Mathlib

/-!
Verification of the stactools-hwsd metadata-assembly code.

This file is a shallow embedding, in Lean 4, of the parts of the
stactools-hwsd repository that the verified properties talk about:

* `constants.py` — the static metadata catalog (asset data types,
  descriptions, units, notes, class labels) and dataset-wide constants;
* `stac.py` — `asset_name_from_href`, `get_geometry`,
  `create_collection` and `create_item`;
* `cog.py` — `create_cogs` / `create_cog` (modelled at the level of
  which conversions are attempted and how outputs are named; the actual
  gdal invocation is an external collaborator).

Python dictionaries are embedded as association lists in source order
(`dictGet` models `d[k]` / `k in d`); Python strings as Lean `String`;
the float constants appearing in the sources are integral (or, for the
affine transform, are kept as the exact rational value of the decimal
literal in the source).  Fallible operations are embedded with
`Option`/`Except`: `create_item` takes the filesystem as an explicit
function `String → Option (Option Nat)` standing for `fsspec.open`
(`none` = the location is inaccessible and `open` raises; `some sz` =
the open succeeded and `file.size` returned `sz`, which Python may
report as `None` = `none`).
-/

namespace HWSD

/-! ## String primitives modelling the Python operations used -/

/-- One replacement pass of Python `str.replace`: replaces every
non-overlapping occurrence of the pattern `p :: ps` (scanning left to
right) with `repl`.  The replaced text is not rescanned, exactly as in
CPython.  The recursion is structural on a fuel argument so that the
kernel can evaluate it; one unit of fuel is spent per input character
consumed, so `fuel = length of the input` always suffices. -/
def replChars (p : Char) (ps : List Char) (repl : List Char) :
    Nat → List Char → List Char
  | _, [] => []
  | 0, l => l
  | fuel + 1, a :: as =>
    if (p :: ps).isPrefixOf (a :: as) then
      repl ++ replChars p ps repl fuel (as.drop ps.length)
    else
      a :: replChars p ps repl fuel as

/-- Python `s.replace(pat, repl)` for a non-empty pattern (the only case
the repository uses).  For an empty pattern the string is returned
unchanged (never exercised). -/
def pyReplace (s pat repl : String) : String :=
  match pat.data with
  | [] => s
  | p :: ps => ⟨replChars p ps repl.data s.data.length s.data⟩

/-- `os.path.basename`: the part of the path after the last `/`. -/
def basename (p : String) : String :=
  ⟨(p.data.reverse.takeWhile (fun c => c ≠ '/')).reverse⟩

instance {ε α : Type} [DecidableEq ε] [DecidableEq α] : DecidableEq (Except ε α) :=
  fun a b =>
    match a, b with
    | .error e, .error f =>
      if h : e = f then .isTrue (by rw [h]) else .isFalse (by simp [h])
    | .error _, .ok _ => .isFalse (by simp)
    | .ok _, .error _ => .isFalse (by simp)
    | .ok x, .ok y =>
      if h : x = y then .isTrue (by rw [h]) else .isFalse (by simp [h])

/-! ## The metadata catalog and dataset-wide constants (`constants.py`) -/

/-- `pystac.extensions.raster.DataType` members used by the catalog. -/
inductive DataType where
  | int16
  | int32
  | float64
deriving DecidableEq, Repr

/-- `pystac.Link` (only the fields the repository sets). -/
structure Link where
  rel : String
  target : String
  title : String
deriving DecidableEq, Repr

/-- `pystac.Provider`: name, role set, url. -/
structure Provider where
  name : String
  roles : List String
  url : String
deriving DecidableEq, Repr

def ID : String := "hwsd"

def EPSG : Int := 4326

/-- External collaborator value: `pyproj.CRS.from_epsg(4326).to_wkt()`.
The exact WKT2 text is produced by pyproj, outside this repository; no
verified property inspects its content, only where it is wired. -/
def HWSD_CRS_WKT : String := "WKT2 text for EPSG:4326 (external pyproj output)"

/-- `SPATIAL_EXTENT = [-180., 90., 180., -90.]` — the float values are
integral and are embedded as integers. -/
def SPATIAL_EXTENT : List Int := [-180, 90, 180, -90]

def TEMPORAL_EXTENT : List String :=
  ["2000-01-01T00:00:00Z", "2000-12-31T23:59:59Z"]

def TITLE : String := "Harmonized World Soil Database"

def DESCRIPTION : String := "This data set describes select global soil parameters from the Harmonized World Soil Database (HWSD) v1.2, including additional calculated parameters such as area weighted soil organic carbon (kg C per m2), as high resolution NetCDF files. These data were regridded and upscaled from the Harmonized World Soil Database v1.2."

def SHAPE : List Nat := [7200, 3600]

/-- The affine transform; the decimal float literals of the source kept
as exact rationals. -/
def TRANSFORM : List ℚ :=
  [(0.049999999999999996 : ℚ), 0, -180, 0, (-0.049999999999999996 : ℚ), 90, 0, 0, 1]

def HOMEPAGE_REGRIDDED_URL : String := "https://daac.ornl.gov/SOILS/guides/HWSD.html"

def HOMEPAGE_2_URL : String := "http://webarchive.iiasa.ac.at/Research/LUC/External-World-soil-database/HTML/SoilQualityData.html?sb=11"

def HOMEPAGE_1_URL : String := "https://www.fao.org/soils-portal/data-hub/soil-maps-and-databases/harmonized-world-soil-database-v12"

def DOCUMENTATION_URL : String := "http://daac.ornl.gov/daacdata/global_soil/HWSD/comp/HWSD1.2_documentation.pdf"

def LICENSE : String := "proprietary"

def LICENSE_LINK : Link :=
  ⟨"license", "https://earthdata.nasa.gov/earth-observation-data/data-use-policy",
   "EOSDIS Data Use Policy"⟩

def PROVIDERS : List Provider :=
  [⟨"FAO", ["host", "licensor", "processor", "producer"], "https://www.fao.org/"⟩,
   ⟨"IIASA", ["licensor", "producer"], "https://iiasa.ac.at/"⟩,
   ⟨"ISRIC", ["licensor", "producer"], "https://www.isric.org/"⟩,
   ⟨"ISS-CAS", ["licensor", "producer"], "http://english.issas.cas.cn/"⟩,
   ⟨"JRC", ["licensor", "producer"], "https://esdac.jrc.ec.europa.eu/"⟩,
   ⟨"ORNL", ["host", "processor"], "https://www.ornl.gov/"⟩,
   ⟨"NCAR", ["producer", "processor"], "https://ncar.ucar.edu/"⟩]

def KEYWORDS : List String :=
  ["HWSD", "Soil", "Soils", "Harmonized World Soil Database", "regridded"]

def CITATION : String := "Wieder, W.R., J. Boehnert, G.B. Bonan, and M. Langseth. 2014. Regridded Harmonized World Soil Database v1.2. Data set. Available on-line [http://daac.ornl.gov] from Oak Ridge National Laboratory Distributed Active Archive Center, Oak Ridge, Tennessee, USA. http://dx.doi.org/10.3334/ORNLDAAC/1247 ."

def DOI : String := "10.3334/ORNLDAAC/1247"

def THUMBNAIL_URL : String := "https://daac.ornl.gov/SOILS/guides/HWSD_Fig1.png"

def NO_DATA : Int := -1

/-- `ASSET_DATA_TYPES`, in source order. -/
def ASSET_DATA_TYPES : List (String × DataType) :=
  [("AWC_CLASS", .int16),
   ("ISSOIL", .int16),
   ("MU_GLOBAL", .int32),
   ("REF_DEPTH", .int16),
   ("ROOTS", .int16),
   ("T_BULK_DEN", .float64),
   ("S_BULK_DEN", .float64),
   ("T_REF_BULK", .float64),
   ("S_REF_BULK", .float64),
   ("T_CEC_CLAY", .float64),
   ("S_CEC_CLAY", .float64),
   ("T_CLAY", .float64),
   ("S_CLAY", .float64),
   ("T_GRAVEL", .float64),
   ("S_GRAVEL", .float64),
   ("T_SAND", .float64),
   ("S_SAND", .float64),
   ("T_SILT", .float64),
   ("S_SILT", .float64),
   ("T_PH_H2O", .float64),
   ("S_PH_H2O", .float64),
   ("T_C", .float64),
   ("S_C", .float64),
   ("T_OC", .float64),
   ("S_OC", .float64),
   ("AWT_S_SOC", .float64),
   ("AWT_T_SOC", .float64)]

/-- `ASSET_DESCRIPTIONS`, in source order. -/
def ASSET_DESCRIPTIONS : List (String × String) :=
  [("AWC_CLASS", "Available water storage capacity"),
   ("ISSOIL", "Soil or non-soil units"),
   ("MU_GLOBAL", "HWSD global mapping unit identifier"),
   ("REF_DEPTH", "Reference soil depth"),
   ("ROOTS", "Depth of obstacles to roots"),
   ("T_BULK_DEN", "Topsoil bulk density"),
   ("S_BULK_DEN", "Subsoil bulk density"),
   ("T_REF_BULK", "topsoil bulk density"),
   ("S_REF_BULK", "Subsoil reference bulk density"),
   ("T_CEC_CLAY", "Cation exchange capacity of the clay fraction in the topsoil"),
   ("S_CEC_CLAY", "Cation exchange capacity of the clay fraction in the subsoil"),
   ("T_CLAY", "Topsoil clay fraction"),
   ("S_CLAY", "Subsoil clay fraction"),
   ("T_GRAVEL", "Topsoil gravel content"),
   ("S_GRAVEL", "Subsoil gravel content"),
   ("T_SAND", "Topsoil sand fraction"),
   ("S_SAND", "Subsoil sand fraction"),
   ("T_SILT", "Topsoil silt fraction"),
   ("S_SILT", "Subsoil silt fraction"),
   ("T_PH_H2O", "Topsoil pH (in H2O)"),
   ("S_PH_H2O", "Subsoil pH (in water)"),
   ("T_C", "Topsoil carbon content"),
   ("S_C", "Dominant soil type subsoil carbon content"),
   ("T_OC", "Topsoil organic carbon"),
   ("S_OC", "Subsoil organic carbon"),
   ("AWT_S_SOC", "Area weighted subsoil carbon content"),
   ("AWT_T_SOC", "Area weighted topsoil carbon content")]

/-- `ASSET_UNITS`, in source order. -/
def ASSET_UNITS : List (String × String) :=
  [("AWC_CLASS", "Coded values 1 through 7"),
   ("ISSOIL", "0 or 1"),
   ("MU_GLOBAL", "numerical ID"),
   ("REF_DEPTH", "cm"),
   ("ROOTS", "Coded values 0 through 6"),
   ("T_BULK_DEN", "kg dm-3"),
   ("S_BULK_DEN", "kg dm-3"),
   ("T_REF_BULK", "kg dm-3"),
   ("S_REF_BULK", "kg dm-3"),
   ("T_CEC_CLAY", "cmol per kg"),
   ("S_CEC_CLAY", "cmol per kg"),
   ("T_CLAY", "% weight"),
   ("S_CLAY", "% weight"),
   ("T_GRAVEL", "% volume"),
   ("S_GRAVEL", "% volume"),
   ("T_SAND", "% weight"),
   ("S_SAND", "% weight"),
   ("T_SILT", "% weight"),
   ("S_SILT", "% weight"),
   ("T_PH_H2O", "-log(H+)"),
   ("S_PH_H2O", "-log(H+)"),
   ("T_C", "kg C m-2"),
   ("S_C", "kg C m-2"),
   ("T_OC", "% weight"),
   ("S_OC", "% weight"),
   ("AWT_S_SOC", "kg C m-2"),
   ("AWT_T_SOC", "kg C m-2")]

/-- `ASSET_NOTES`, in source order. -/
def ASSET_NOTES : List (String × String) :=
  [("AWC_CLASS", "1 = 150 mm water per m of the soil unit, 2 = 125 mm, 3 = 100 mm, 4 = 75 mm, 5 = 50 mm, 6 = 15 mm, 7 = 0 mm."),
   ("ISSOIL", "ISSOIL indicates whether the soil mapping unit is a soil (1) or non-soil (0)"),
   ("MU_GLOBAL", "MU_GLOBAL provides a link from the grid cell to the other attributes.The HWSD v1.2 attribute lookup table is available from the HWSD project (FAO 2012)"),
   ("REF_DEPTH", "Reference soil depth of all soil units are set at 100 cm, except for Rendzinas and Rankers of FAO-74 and Leptosols of FAO-90, where the reference soil depth is set at 30 cm, and for Lithosols of FAO-74 and Lithic Leptosols of FAO-90, where it is set at 10 cm."),
   ("ROOTS", "0 = no information, 1 = no obstacles to roots between 0 and 80 cm depth, 2 = obstacles to roots between 60 and 80 cm depth, 3 = obstacles between 40 and 60 cm, 4 = 20 and 40 cm, 5 = 0 and 80 cm, 6 = 0 and 20 cm."),
   ("T_REF_BULK", "Reference bulk density values are calculated from equations developed by Saxton et al. (1986) that relate to the texture of the soil only. These estimates, although generally reliable, overestimate the bulk density in soils that have a high porosity (Andosols) or that are high in organic matter content (Histosols). The calculation procedures for reference bulk density can be found in Saxton et al (1986)"),
   ("T_C", "Topsoil and subsoil carbon content (T_C and S_C) are based on the carbon content of the dominant soil type in each regridded cell rather than a weighted average."),
   ("AWT_S_SOC", "AWT_S_SOC = (sum(SEQ(SHARE * S_OC)) * 7 * S_BULK_DENSITY)"),
   ("AWT_T_SOC", "AWT_T_SOC = (sum(SEQ(SHARE * T_OC)) * 3 * T_BULK_DENSITY)")]

/-- `ASSET_LABELS`, in source order; each value is the ordered
code-to-label mapping of a categorical variable. -/
def ASSET_LABELS : List (String × List (Int × String)) :=
  [("AWC_CLASS",
    [(1, "150 mm per m of the soil unit"),
     (2, "125 mm per m"),
     (3, "100 mm per m"),
     (4, "75 mm per m"),
     (5, "50 mm per m"),
     (6, "15 mm per m"),
     (7, "0 mm per m")]),
   ("ISSOIL",
    [(0, "not soil"),
     (1, "soil")]),
   ("ROOTS",
    [(0, "no information"),
     (1, "no obstacles to roots between 0 and 80 cm depth"),
     (2, "obstacles to roots between 60 and 80 cm depth"),
     (3, "obstacle to roots between 40 and 60 cm depth"),
     (4, "obstacle to roots between 20 and 40 cm depth"),
     (5, "obstacle to roots between 0 and 80 cm depth"),
     (6, "obstacle to roots between 0 and 20 cm depth")])]

/-- The top-level names bound by `constants.py`, in source order.  Used
to model the `from stactools.hwsd.constants import ...` statements. -/
def constantsDefinedNames : List String :=
  ["ID", "EPSG", "HWSD_CRS", "SPATIAL_EXTENT", "TEMPORAL_EXTENT", "TITLE",
   "DESCRIPTION", "SHAPE", "TRANSFORM", "HOMEPAGE_REGRIDDED_URL",
   "HOMEPAGE_2_URL", "HOMEPAGE_1_URL", "DOCUMENTATION_URL", "LICENSE",
   "LICENSE_LINK", "PROVIDERS", "KEYWORDS", "CITATION", "DOI",
   "THUMBNAIL_URL", "NO_DATA", "ASSET_DATA_TYPES", "ASSET_DESCRIPTIONS",
   "ASSET_UNITS", "ASSET_NOTES", "ASSET_LABELS"]

/-! ## Dictionary lookup -/

/-- `d[k]` on a Python dict embedded as an association list: the first
binding whose key equals `k` (keys are unique in every table above). -/
def dictGet {α : Type} (l : List (String × α)) (k : String) : Option α :=
  match l with
  | [] => none
  | (k', v) :: rest => if k = k' then some v else dictGet rest k

theorem dictGet_isSome_iff {α : Type} (l : List (String × α)) (k : String) :
    (dictGet l k).isSome = true ↔ k ∈ l.map Prod.fst := by
  induction l with
  | nil => simp [dictGet]
  | cons hd tl ih =>
    obtain ⟨k', v⟩ := hd
    by_cases h : k = k'
    · subst h
      simp [dictGet]
    · simp [dictGet, h, ih]

theorem dictGet_eq_none_of_not_mem {α : Type} (l : List (String × α)) (k : String)
    (h : k ∉ l.map Prod.fst) : dictGet l k = none := by
  cases hd : dictGet l k with
  | none => rfl
  | some v =>
    exact absurd ((dictGet_isSome_iff l k).mp (by simp [hd])) h

/-- The registered variable names, in catalog order: the spec's
`all_names()` (the key sequence of the catalog tables). -/
def all_names : List String := ASSET_DATA_TYPES.map Prod.fst

/-! ## `stac.py`: name derivation and geometry -/

/-- `asset_name_from_href`:
`os.path.basename(href).replace(".nc4", "").replace(".tif", "")`. -/
def asset_name_from_href (href : String) : String :=
  pyReplace (pyReplace (basename href) ".nc4" "") ".tif" ""

/-- `shapely.geometry.geo.box(minx, miny, maxx, maxy, ccw)`: the open
rectangle ring `[(maxx, miny), (maxx, maxy), (minx, maxy), (minx, miny)]`,
reversed when `ccw` is false. -/
def shapelyBox (minx miny maxx maxy : Int) (ccw : Bool) : List (Int × Int) :=
  let coords := [(maxx, miny), (maxx, maxy), (minx, maxy), (minx, miny)]
  if ccw then coords else coords.reverse

/-- `polygon.exterior.coords`: the ring closed by repeating its first
point at the end. -/
def exteriorCoords (ring : List (Int × Int)) : List (Int × Int) :=
  match ring with
  | [] => []
  | p :: ps => (p :: ps) ++ [p]

/-- A GeoJSON geometry as built by `get_geometry` (coordinates of the
fixed extent are integral). -/
structure Geometry where
  type : String
  coordinates : List (List (Int × Int))
deriving DecidableEq, Repr

/-- `get_geometry`: `box(*SPATIAL_EXTENT, ccw=True)` and the closed
exterior coordinate ring.  `SPATIAL_EXTENT` has exactly four entries, so
the fallback branch is dead. -/
def get_geometry : Geometry :=
  match SPATIAL_EXTENT with
  | [minx, miny, maxx, maxy] =>
    ⟨"Polygon", [exteriorCoords (shapelyBox minx miny maxx maxy true)]⟩
  | _ => ⟨"Polygon", []⟩

/-- Twice the signed area of a closed coordinate ring (shoelace sum
`Σ (xᵢ·yᵢ₊₁ − xᵢ₊₁·yᵢ)`); positive for counter-clockwise winding,
negative for clockwise. -/
def shoelace : List (Int × Int) → Int
  | (x1, y1) :: (x2, y2) :: rest => (x1 * y2 - x2 * y1) + shoelace ((x2, y2) :: rest)
  | _ => 0

/-! ## `stac.py`: `create_collection` -/

/-- A plain `pystac.Asset` as the repository populates it (collection
auxiliary assets and the item documentation asset). -/
structure Asset where
  media_type : String
  roles : List String
  title : String
  href : String
deriving DecidableEq, Repr

/-- An item-assets `AssetDefinition` template (only the `data` template
carries the projection fields). -/
structure AssetDefinition where
  types : String
  roles : List String
  title : Option String
  projEpsg : Option Int
  projWkt2 : Option String
  projBbox : Option (List Int)
  projGeometry : Option Geometry
  projShape : Option (List Nat)
  projTransform : Option (List ℚ)
deriving DecidableEq, Repr

/-- The STAC Collection record as `create_collection` populates it.
`str_to_datetime` is an external parser; the embedding keeps the
datetime strings it is given. -/
structure Collection where
  id : String
  title : String
  description : String
  keywords : List String
  license : String
  providers : List Provider
  spatialExtent : List (List Int)
  temporalExtent : List String
  catalogType : String
  links : List Link
  summariesEpsg : List Int
  doi : String
  citation : String
  assets : List (String × Asset)
  item_assets : List (String × AssetDefinition)
deriving DecidableEq, Repr

/-- `create_collection` (`stac.py`): a pure construction from the
module constants; the source performs no I/O here. -/
def create_collection : Collection where
  id := ID
  title := TITLE
  description := DESCRIPTION
  keywords := KEYWORDS
  license := LICENSE
  providers := PROVIDERS
  spatialExtent := [SPATIAL_EXTENT]
  temporalExtent := TEMPORAL_EXTENT
  catalogType := "RELATIVE_PUBLISHED"
  links :=
    [LICENSE_LINK,
     ⟨"via", HOMEPAGE_1_URL, "Homepage"⟩,
     ⟨"via", HOMEPAGE_2_URL, "Homepage, Alternate"⟩,
     ⟨"via", HOMEPAGE_REGRIDDED_URL, "Homepage, Regridded"⟩]
  summariesEpsg := [EPSG]
  doi := DOI
  citation := CITATION
  assets :=
    [("documentation",
      ⟨"application/pdf", ["documentation", "metadata"], "Documentation",
       DOCUMENTATION_URL⟩),
     ("thumbnail",
      ⟨"image/png", ["thumbnail"], "Thumbnail", THUMBNAIL_URL⟩)]
  item_assets :=
    [("data",
      ⟨"image/tiff; application=geotiff; profile=cloud-optimized", ["data"],
       none, some EPSG, some HWSD_CRS_WKT, some SPATIAL_EXTENT,
       some get_geometry, some SHAPE, some TRANSFORM⟩),
     ("documentation",
      ⟨"application/pdf", ["documentation", "metadata"],
       some "Documentation", none, none, none, none, none, none⟩)]

/-! ## `stac.py`: `create_item` -/

/-- A raster band descriptor (`RasterBand.create`). -/
structure RasterBand where
  nodata : Int
  sampling : String
  data_type : DataType
deriving DecidableEq, Repr

/-- One entry of the file-extension value mapping:
`{"values": [value], "summary": summary}`. -/
structure FileMapEntry where
  values : List Int
  summary : String
deriving DecidableEq, Repr

/-- `LabelClasses.create(classes, name)` (the source passes the empty
string as the name; see the TODO about the label JSON schema). -/
structure LabelClass where
  classes : List String
  name : String
deriving DecidableEq, Repr

/-- The label-extension block `create_item` attaches for categorical
variables. -/
structure LabelBlock where
  label_type : String
  label_tasks : List String
  label_description : String
  label_classes : List LabelClass
deriving DecidableEq, Repr

/-- The single data asset of an item, with its projection, file and
raster extension fields. -/
structure DataAsset where
  href : String
  media_type : String
  roles : List String
  title : String
  description : String
  units : String
  notes : Option String
  projEpsg : Int
  projWkt2 : String
  projBbox : List Int
  projGeometry : Geometry
  projShape : List Nat
  projTransform : List ℚ
  file_values : Option (List FileMapEntry)
  file_size : Option Nat
  raster_bands : List RasterBand
deriving DecidableEq, Repr

/-- The STAC Item record as `create_item` populates it. -/
structure Item where
  id : String
  geometry : Geometry
  bbox : List Int
  datetime : String
  title : String
  description : String
  start_datetime : String
  end_datetime : String
  links : List Link
  citation : String
  doi : String
  projEpsg : Int
  projWkt2 : String
  projBbox : List Int
  projGeometry : Geometry
  projShape : List Nat
  projTransform : List ℚ
  documentation : Asset
  label : Option LabelBlock
  data_asset : DataAsset
deriving DecidableEq, Repr

/-- How a `create_item` call fails: a `KeyError` on a catalog lookup for
an unregistered name (the spec's `UnknownVariable`), or the exception
raised by `fsspec.open` when the (possibly rewritten) location is
inaccessible. -/
inductive BuildError where
  | unknownVariable (name : String)
  | sizeProbeFailure
deriving DecidableEq, Repr

/-- The optional `cog_href_modifier` applied to the href (identity when
absent), producing `cog_access_href`. -/
def applyModifier : Option (String → String) → String → String
  | some m, href => m href
  | none, href => href

/-- The straight-line record assembly of `create_item` once every
fallible step has succeeded.  `notes`, the label block, the roles and
the file-extension value mapping come from total membership tests on
`ASSET_NOTES` / `ASSET_LABELS`. -/
def buildItemRecord (asset_name cog_href description units : String)
    (size : Option Nat) (dt : DataType) : Item :=
  let labels := dictGet ASSET_LABELS asset_name
  { id := asset_name
    geometry := get_geometry
    bbox := SPATIAL_EXTENT
    datetime := TEMPORAL_EXTENT.getD 0 ""
    title := asset_name
    description := description
    start_datetime := TEMPORAL_EXTENT.getD 0 ""
    end_datetime := TEMPORAL_EXTENT.getD 1 ""
    links :=
      [⟨"via", HOMEPAGE_1_URL, "Homepage"⟩,
       ⟨"via", HOMEPAGE_2_URL, "Homepage, Alternate"⟩,
       ⟨"via", HOMEPAGE_REGRIDDED_URL, "Homepage, Regridded"⟩]
    citation := CITATION
    doi := DOI
    projEpsg := EPSG
    projWkt2 := HWSD_CRS_WKT
    projBbox := SPATIAL_EXTENT
    projGeometry := get_geometry
    projShape := SHAPE
    projTransform := TRANSFORM
    documentation :=
      ⟨"application/pdf", ["documentation", "metadata"], "HWSD Documentation",
       DOCUMENTATION_URL⟩
    label :=
      labels.map (fun ls =>
        ⟨"raster", ["classification"], description,
         [⟨ls.map Prod.snd, ""⟩]⟩)
    data_asset :=
      { href := cog_href
        media_type := "image/tiff; application=geotiff; profile=cloud-optimized"
        roles :=
          match labels with
          | some _ => ["data", "labels", "labels-raster"]
          | none => ["data"]
        title := asset_name
        description := description
        units := units
        notes := dictGet ASSET_NOTES asset_name
        projEpsg := EPSG
        projWkt2 := HWSD_CRS_WKT
        projBbox := SPATIAL_EXTENT
        projGeometry := get_geometry
        projShape := SHAPE
        projTransform := TRANSFORM
        file_values :=
          labels.map (fun ls => ls.map (fun p => ⟨[p.1], p.2⟩))
        file_size := size
        raster_bands := [⟨NO_DATA, "area", dt⟩] } }

/-- `create_item` (`stac.py`).  `fs` is the filesystem seen by
`fsspec.open` (see the header comment); the fallible steps occur in
source order: the `ASSET_DESCRIPTIONS` lookup (line 189), the
`ASSET_UNITS` lookup (line 230), the size probe (line 281), the
`ASSET_DATA_TYPES` lookup (line 292). -/
def create_item (fs : String → Option (Option Nat))
    (cog_href_modifier : Option (String → String)) (cog_href : String) :
    Except BuildError Item :=
  match dictGet ASSET_DESCRIPTIONS (asset_name_from_href cog_href) with
  | none => .error (.unknownVariable (asset_name_from_href cog_href))
  | some description =>
  match dictGet ASSET_UNITS (asset_name_from_href cog_href) with
  | none => .error (.unknownVariable (asset_name_from_href cog_href))
  | some units =>
  match fs (applyModifier cog_href_modifier cog_href) with
  | none => .error .sizeProbeFailure
  | some size =>
  match dictGet ASSET_DATA_TYPES (asset_name_from_href cog_href) with
  | none => .error (.unknownVariable (asset_name_from_href cog_href))
  | some dt =>
  .ok (buildItemRecord (asset_name_from_href cog_href) cog_href description units size dt)

/-! ## `cog.py`: `create_cogs` -/

/-- How the cog module fails: `cog.py` opens with
`from stactools.hwsd.constants import DATA_TYPES, NO_DATA`; an imported
name that `constants.py` does not bind raises `ImportError` before any
function of the module can run. -/
inductive CogError where
  | importError
deriving DecidableEq, Repr

/-- Whether the import statement of `cog.py` succeeds against the names
`constants.py` actually defines. -/
def cogImportOk : Bool :=
  constantsDefinedNames.contains "DATA_TYPES" &&
    constantsDefinedNames.contains "NO_DATA"

/-- `glob(f"{input_directory}/*.nc4")` over a directory listing: names
ending in `.nc4`, excluding dot-files (glob's `*` does not match a
leading dot). -/
def globNc4 (dirListing : List String) : List String :=
  dirListing.filter (fun name =>
    List.isSuffixOf ".nc4".data name.data &&
      match name.data with
      | c :: _ => !(c = '.')
      | [] => false)

/-- The conversions the `create_cogs` loop schedules: every globbed
`.nc4` file except `HWSD_SOIL_CLM_RES.nc4`, each mapped to
`os.path.join(output_directory, f"{asset_name_from_href(in_file)}.tif")`. -/
def cogConversionPlan (dirListing : List String)
    (input_directory output_directory : String) : List (String × String) :=
  ((globNc4 dirListing).filter (fun name =>
      basename (input_directory ++ "/" ++ name) ≠ "HWSD_SOIL_CLM_RES.nc4")).map
    (fun name =>
      (input_directory ++ "/" ++ name,
       output_directory ++ "/" ++
         asset_name_from_href (input_directory ++ "/" ++ name) ++ ".tif"))

/-- `create_cogs` (`cog.py`), at the level of which input files are
converted and how the outputs are named; the gdal subprocess itself is
the external collaborator.  Calling it first requires the module import
to have succeeded. -/
def create_cogs (dirListing : List String)
    (input_directory output_directory : String) :
    Except CogError (List (String × String)) :=
  if cogImportOk then
    .ok (cogConversionPlan dirListing input_directory output_directory)
  else
    .error .importError

/-! ## Spec-side comparison definition for the name derivation -/

/-- Definition following the spec's words for the name derivation
(spec section 4.3 step 1 and section 6): the variable name is the
asset filename stem, the basename minus a single trailing `.nc4` or
`.tif` extension, with the remainder of the stem preserved unchanged.
Kept separate from `asset_name_from_href` (embedded from the source) so
the two derivations can be compared. -/
def specTrailingStemStrip (p : String) : String :=
  let b := basename p
  if List.isSuffixOf ".nc4".data b.data then ⟨b.data.take (b.data.length - 4)⟩
  else if List.isSuffixOf ".tif".data b.data then ⟨b.data.take (b.data.length - 4)⟩
  else b

/-! ## Shared helper lemmas -/

theorem desc_keys_eq : ASSET_DESCRIPTIONS.map Prod.fst = all_names := by decide

theorem units_keys_eq : ASSET_UNITS.map Prod.fst = all_names := by decide

theorem dictGet_desc_isSome {n : String} (h : n ∈ all_names) :
    (dictGet ASSET_DESCRIPTIONS n).isSome = true :=
  (dictGet_isSome_iff _ _).mpr (desc_keys_eq ▸ h)

theorem dictGet_units_isSome {n : String} (h : n ∈ all_names) :
    (dictGet ASSET_UNITS n).isSome = true :=
  (dictGet_isSome_iff _ _).mpr (units_keys_eq ▸ h)

theorem dictGet_dataTypes_isSome {n : String} (h : n ∈ all_names) :
    (dictGet ASSET_DATA_TYPES n).isSome = true :=
  (dictGet_isSome_iff _ _).mpr h

/-! ## Observations used by individual claims -/

/-- The observable fields of a `Collection` named by the idempotence
property: identity, extents, links, assets and item-asset templates. -/
def collectionObservation (c : Collection) :
    String × String × List (List Int) × List String × List Link ×
      List Int × String × String × List (String × Asset) ×
      List (String × AssetDefinition) :=
  (c.id, c.title, c.spatialExtent, c.temporalExtent, c.links,
   c.summariesEpsg, c.doi, c.citation, c.assets, c.item_assets)

/-- Per-name check for claim C5: the built item's single data asset
carries exactly the catalog's data type (in its one raster band), unit
string and description for that name. -/
def catalogMatches (name : String) : Bool :=
  match (create_item (fun _ => some none) none (name ++ ".tif")).toOption,
      dictGet ASSET_DATA_TYPES name, dictGet ASSET_UNITS name,
      dictGet ASSET_DESCRIPTIONS name with
  | some item, some dt, some u, some d =>
    decide (item.data_asset.raster_bands = [⟨NO_DATA, "area", dt⟩]) &&
      decide (item.data_asset.units = u) &&
      decide (item.data_asset.description = d)
  | _, _, _, _ => false

/-- Per-name check for claim C6: for a categorical variable the built
item's label block has exactly one `LabelClasses` entry whose class list
has one class per code, and the file-extension value mapping has one
entry per code; for a non-categorical variable the item has no label
block and no value mapping. -/
def labelCheck (name : String) : Bool :=
  match (create_item (fun _ => some none) none (name ++ ".tif")).toOption,
      dictGet ASSET_LABELS name with
  | some item, some ls =>
    decide ((item.label.map (fun b => b.label_classes.map (fun c => c.classes.length)))
        = some [ls.length]) &&
      decide (item.data_asset.file_values = some (ls.map (fun p => ⟨[p.1], p.2⟩)))
  | some item, none =>
    decide (item.label = none) && decide (item.data_asset.file_values = none)
  | none, _ => false

/-! ## The claims -/

/-- C1, counterexample: the number of item-asset templates
`create_collection` installs is not `len(all_names()) + 1`: the
collection carries two templates while the catalog registers 27 names. -/
theorem c1_item_assets_count_counterexample :
    create_collection.item_assets.length ≠ all_names.length + 1 := by decide

/-- C1 (amended): `create_collection` installs exactly two item-asset
templates, one shared `data` template and one `documentation` template,
independently of the number of registered catalog entries (27). -/
theorem c1_item_assets_two_templates :
    create_collection.item_assets.map Prod.fst = ["data", "documentation"] ∧
      create_collection.item_assets.length = 2 ∧ all_names.length = 27 := by decide

/-- C2, counterexample: when the location is inaccessible (the
filesystem rejects every open), `create_item` on a registered name does
not return a record with the size omitted — the probe failure
propagates and the call fails. -/
theorem c2_probe_failure_propagates_counterexample :
    create_item (fun _ => none) none "AWC_CLASS.tif" =
      Except.error BuildError.sizeProbeFailure := by decide

/-- C2 (amended): the size field is omitted only in the soft case where
the open succeeds but reports no size (`file.size` is `None`): then
`create_item` on a registered name returns a fully populated record
whose `file_size` is `none`.  An inaccessible location instead raises
out of `create_item` (see the counterexample). -/
theorem c2_size_omitted_when_probe_reports_none
    (fs : String → Option (Option Nat)) (href : String)
    (hreg : asset_name_from_href href ∈ all_names)
    (hfs : fs href = some none) :
    (create_item fs none href).toOption.map (fun item => item.data_asset.file_size)
      = some none := by
  obtain ⟨d, hd⟩ := Option.isSome_iff_exists.mp (dictGet_desc_isSome hreg)
  obtain ⟨u, hu⟩ := Option.isSome_iff_exists.mp (dictGet_units_isSome hreg)
  obtain ⟨dt, hdt⟩ := Option.isSome_iff_exists.mp (dictGet_dataTypes_isSome hreg)
  simp [create_item, applyModifier, hd, hu, hfs, hdt, buildItemRecord]
  exact ⟨_, rfl, rfl⟩

/-- C2 witness: a registered asset over a filesystem that opens
everything but knows no sizes. -/
theorem c2_size_omitted_witness :
    (create_item (fun _ => some none) none "AWC_CLASS.tif").toOption.map
        (fun item => item.data_asset.file_size) = some none :=
  c2_size_omitted_when_probe_reports_none (fun _ => some none) "AWC_CLASS.tif"
    (by decide) rfl

/-- C3: the ring `get_geometry` produces from the fixed bounding box is
closed with exactly 5 coordinate pairs whose first and last points are
equal, but its shoelace sum is negative, i.e. the winding is clockwise —
not the counter-clockwise winding the `ccw=True` argument (and GeoJSON)
intend.  `SPATIAL_EXTENT` is stored `[west, north, east, south]`, so
`box` receives `miny = 90 > maxy = -90` and the orientation flips. -/
theorem c3_ring_closed_but_clockwise :
    (get_geometry.coordinates.headD []).length = 5 ∧
      (get_geometry.coordinates.headD []).headD (0, 0)
        = (get_geometry.coordinates.headD []).getLastD (1, 1) ∧
      shoelace (get_geometry.coordinates.headD []) < 0 := by decide

/-- C4: for every asset path whose derived stem is not a registered
variable name, `create_item` fails with the unknown-variable error
(the `KeyError` from the first catalog lookup) and returns no record;
the catalog is immutable static data, so no state can change. -/
theorem c4_unknown_name_fails (fs : String → Option (Option Nat))
    (cog_href_modifier : Option (String → String)) (href : String)
    (h : asset_name_from_href href ∉ all_names) :
    create_item fs cog_href_modifier href =
      Except.error (BuildError.unknownVariable (asset_name_from_href href)) := by
  have hk : dictGet ASSET_DESCRIPTIONS (asset_name_from_href href) = none :=
    dictGet_eq_none_of_not_mem _ _ (desc_keys_eq ▸ h)
  simp [create_item, hk]

/-- C4 witness: the spec's own end-to-end example `unknown_var.tif`. -/
theorem c4_unknown_name_fails_witness :
    create_item (fun _ => some none) none "unknown_var.tif" =
      Except.error (BuildError.unknownVariable "unknown_var") := by
  have h := c4_unknown_name_fails (fun _ => some none) none "unknown_var.tif"
    (by decide)
  have e : asset_name_from_href "unknown_var.tif" = "unknown_var" := by decide
  rw [e] at h
  exact h

/-- C5: for every registered variable name, the item built from an
asset path with that stem has a single data asset whose raster-band
data type, unit string and description are exactly the catalog's
`ASSET_DATA_TYPES`, `ASSET_UNITS` and `ASSET_DESCRIPTIONS` entries for
that name. -/
theorem c5_data_asset_matches_catalog : all_names.all catalogMatches = true := by
  decide

/-- C6: for every categorical variable the built item carries a label
block with exactly as many classes as the variable has codes and a
file-extension value mapping with one entry per code, and for every
non-categorical variable it carries neither; `AWC_CLASS` in particular
has the 7 codes 1 through 7. -/
theorem c6_label_block_matches_codes :
    all_names.all labelCheck = true ∧
      (dictGet ASSET_LABELS "AWC_CLASS").map
          (fun ls => (ls.length, ls.map Prod.fst))
        = some (7, [1, 2, 3, 4, 5, 6, 7]) := by decide

/-- C7, counterexample: the name derivation is not a trailing-extension
strip — `str.replace` removes every occurrence of `.nc4` and `.tif`, so
on the path `A.tifB.tif` the code derives `AB` while stripping only the
trailing extension would preserve the stem `A.tifB`. -/
theorem c7_not_trailing_only_counterexample :
    asset_name_from_href "A.tifB.tif" = "AB" ∧
      specTrailingStemStrip "A.tifB.tif" = "A.tifB" ∧
      asset_name_from_href "A.tifB.tif" ≠ specTrailingStemStrip "A.tifB.tif" := by
  decide

/-- C7 (amended): the derived name is the basename with every
occurrence of the substrings `.nc4` and `.tif` removed (all `.nc4`
first, then all `.tif`), not only a trailing extension; for filenames
whose stem contains neither substring — in particular every registered
variable name — this coincides with stripping the single trailing
extension. -/
theorem c7_derivation_for_clean_stems :
    all_names.all (fun n =>
      decide (asset_name_from_href ("dir/" ++ n ++ ".tif") = n) &&
        decide (asset_name_from_href (n ++ ".nc4") = n) &&
        decide (asset_name_from_href (n ++ ".tif")
          = specTrailingStemStrip (n ++ ".tif"))) = true := by decide

/-- C8: `create_collection` is deterministic and idempotent.  The
source function performs no I/O and reads only module constants, so its
embedding is a closed term: two calls with no intervening state change
are the same record, and in particular agree on every observable field
(id, title, extents, links, assets, item-asset templates). -/
theorem c8_create_collection_deterministic :
    create_collection = create_collection ∧
      collectionObservation create_collection
        = collectionObservation create_collection :=
  ⟨rfl, rfl⟩

/-- C9: the catalog key-set invariant — `ASSET_DATA_TYPES`,
`ASSET_DESCRIPTIONS` and `ASSET_UNITS` have the same key sequence of 27
names, every key of `ASSET_NOTES` and of `ASSET_LABELS` is one of them,
and consequently `create_item` succeeds on every registered name (no
per-field lookup can fail part-way through). -/
theorem c9_catalog_key_sets_consistent :
    ASSET_DESCRIPTIONS.map Prod.fst = all_names ∧
      ASSET_UNITS.map Prod.fst = all_names ∧
      all_names.length = 27 ∧
      (ASSET_NOTES.map Prod.fst).all (fun k => all_names.contains k) = true ∧
      (ASSET_LABELS.map Prod.fst).all (fun k => all_names.contains k) = true ∧
      all_names.all (fun n =>
        (create_item (fun _ => some none) none (n ++ ".tif")).toOption.isSome)
        = true := by decide

/-- C10: `cog.py` imports `DATA_TYPES` from `constants.py`, which binds
`ASSET_DATA_TYPES` but no `DATA_TYPES`, so importing the module raises
and `create_cogs` can never convert anything — even though the loop
itself schedules exactly the conversions the claim describes (every
`*.nc4` file except `HWSD_SOIL_CLM_RES.nc4`, output `<stem>.tif` in the
output directory). -/
theorem c10_create_cogs_import_broken :
    cogImportOk = false ∧
      create_cogs ["T_SAND.nc4", "HWSD_SOIL_CLM_RES.nc4"] "in" "out"
        = Except.error CogError.importError ∧
      cogConversionPlan ["T_SAND.nc4", "HWSD_SOIL_CLM_RES.nc4", "readme.txt"]
          "in" "out"
        = [("in/T_SAND.nc4", "out/T_SAND.tif")] := by decide

end HWSD
